import Mathlib

/-!
Verification development for the overpass-ts client (src/overpass.ts and
src/utils.ts): a shallow embedding of the request executor, the status
parser and the backoff decision logic, together with theorems settling the
specification claims.

JavaScript machine details that matter to the embedding:
  * `Array.prototype.append` does not exist: calling it throws a TypeError.
    The parser embedding therefore returns `Except Unit _`, with `.error ()`
    standing for the thrown TypeError.
  * `undefined` and `NaN` compare `false` under both `>` and `== 0`; the
    embedding stores such numeric fields as `Option Int` with `none`
    covering the undefined/NaN case.
  * `String.prototype.replace` with a string pattern replaces only the
    first occurrence.
  * `Date.parse` is a host builtin; the embedding is parameterized over it
    (`dateParse : String → Int`).
-/

/-- JS whitespace class as used by `\s` in regexes and by `parseInt`
(ASCII part; the source never meets non-ASCII whitespace). -/
def wsChar (c : Char) : Bool :=
  c == ' ' || c == '\t' || c == '\n' || c == '\r' || c == '\x0b' || c == '\x0c'

/-- `s.slice(n)` for a non-negative index: the substring from `n` to the end. -/
def jsSliceFrom (s : String) (n : Nat) : String :=
  ⟨s.toList.drop n⟩

/-- `s.slice(start, finish)` with JS index normalization: negative indices
count from the end, indices are clamped to `[0, length]`, and an empty
string results when the normalized start is not below the normalized end. -/
def jsSlice2 (s : String) (start finish : Int) : String :=
  let len : Int := s.length
  let norm : Int → Nat := fun i => if i < 0 then (len + i).toNat else min i.toNat s.length
  let a := norm start
  let b := norm finish
  ⟨(s.toList.take b).drop a⟩

/-- JS `split` with a single-character separator, on character lists:
`"".split(sep)` is `[""]`, and a trailing separator yields a trailing
empty piece. -/
def splitOnCharL (sep : Char) : List Char → List (List Char)
  | [] => [[]]
  | c :: cs =>
    if c == sep then [] :: splitOnCharL sep cs
    else
      match splitOnCharL sep cs with
      | [] => [[c]]
      | w :: ws => (c :: w) :: ws

/-- Substring containment on lists of characters (`String.prototype.includes`). -/
def containsSubstrL (pat : List Char) : List Char → Bool
  | [] => pat.isPrefixOf ([] : List Char)
  | c :: cs => pat.isPrefixOf (c :: cs) || containsSubstrL pat cs

/-- `s.includes(sub)`. -/
def containsSubstrS (s sub : String) : Bool :=
  containsSubstrL sub.toList s.toList

/-- Digits of a decimal numeral folded to a natural number. -/
def digitsToNat (l : List Char) : Nat :=
  l.foldl (fun a c => a * 10 + (c.toNat - 48)) 0

/-- Hex digits folded to a natural number. -/
def hexDigitsToNat (l : List Char) : Nat :=
  l.foldl (fun a c =>
    a * 16 +
      (if '0' ≤ c ∧ c ≤ '9' then c.toNat - 48
       else if 'a' ≤ c ∧ c ≤ 'f' then c.toNat - 87
       else c.toNat - 55)) 0

def isHexDigitChar (c : Char) : Bool :=
  ('0' ≤ c && c ≤ '9') || ('a' ≤ c && c ≤ 'f') || ('A' ≤ c && c ≤ 'F')

def isDecDigitChar (c : Char) : Bool :=
  '0' ≤ c && c ≤ '9'

/-- JS `parseInt(s)` (no radix argument): skip whitespace, optional sign,
optional `0x`/`0X` hex prefix, then the longest digit prefix; `none`
models the `NaN` result when no digit is found. -/
def jsParseIntOpt (s : String) : Option Int :=
  let l := s.toList.dropWhile wsChar
  let signAndRest : Int × List Char :=
    match l with
    | '-' :: rest => (-1, rest)
    | '+' :: rest => (1, rest)
    | _ => (1, l)
  let sign := signAndRest.1
  let body := signAndRest.2
  match body with
  | '0' :: x :: rest =>
    if x == 'x' || x == 'X' then
      let ds := rest.takeWhile isHexDigitChar
      if ds.isEmpty then none else some (sign * hexDigitsToNat ds)
    else
      let ds := body.takeWhile isDecDigitChar
      if ds.isEmpty then none else some (sign * digitsToNat ds)
  | _ =>
    let ds := body.takeWhile isDecDigitChar
    if ds.isEmpty then none else some (sign * digitsToNat ds)

/-- The capacity snapshot built by `parseApiStatus`.  Fields absent from the
JS object (or holding `NaN`) are `none`; both behave identically in every
comparison the source performs on them. -/
structure OverpassApiStatus where
  clientId : Option String := none
  currentTime : Option Int := none
  rateLimit : Option Int := none
  slotsRunning : List (List String) := []
  slotsAvailableAfter : List Int := []
deriving DecidableEq

/-- One iteration of the `forEach` body of `parseApiStatus`.  The `Slot`
branch and the running-query branch call `.append` on a JS array — a method
that does not exist — so reaching either throws a TypeError, modelled as
`.error ()`. -/
def parseApiStatusLine (dateParse : String → Int) (st : OverpassApiStatus)
    (statusLine : List Char) : Except Unit OverpassApiStatus :=
  let lineFirstWord := (splitOnCharL ' ' statusLine).headD []
  if lineFirstWord == "Connected".toList then
    .ok {st with clientId := some ⟨statusLine.drop 14⟩}
  else if lineFirstWord == "Current".toList then
    .ok {st with currentTime := some (dateParse ⟨statusLine.drop 14⟩)}
  else if lineFirstWord == "Rate".toList then
    .ok {st with rateLimit := jsParseIntOpt ⟨statusLine.drop 12⟩}
  else if lineFirstWord == "Slot".toList then
    .error ()
  else if lineFirstWord != "Currently".toList &&
      !(containsSubstrL "available".toList statusLine) then
    .error ()
  else
    .ok st

/-- `parseApiStatus` from src/utils.ts: split on newlines and fold the
per-line update over the initial object `{slotsRunning: [], slotsAvailableAfter: []}`.
A TypeError thrown inside `forEach` aborts the whole call (`.error ()`). -/
def parseApiStatusJS (dateParse : String → Int) (statusHtml : String) :
    Except Unit OverpassApiStatus :=
  (splitOnCharL '\n' statusHtml.toList).foldlM (parseApiStatusLine dateParse) {}

/-- The typed error hierarchy of src/overpass.ts, plus `typeError` for the
JS TypeError thrown by the parser's nonexistent `.append` method (not an
`OverpassError` subclass). -/
inductive OverpassFailure where
  | badRequest (query : String) (errors : List String)
  | rateLimit
  | gatewayTimeout
  | apiStatusErr (msg : String)
  | overpassErr (msg : String)
  | typeError
deriving DecidableEq

/-- String interpolation of a nullable header value (`null` prints as "null"). -/
def ctShow : Option String → String
  | none => "null"
  | some s => s

/-- The guard in `apiStatus`: `!responseType || responseType.split(";")[0] !== "text/plain"`
negated — the fetch proceeds iff the header is present, truthy, and its
part before the first `;` is exactly "text/plain". -/
def contentTypeOk (responseType : Option String) : Bool :=
  match responseType with
  | none => false
  | some ct => !(ct == "") && ((splitOnCharL ';' ct.toList).headD [] == "text/plain".toList)

/-- `apiStatus` from src/overpass.ts, given the status response's
content-type header and body text: reject with an API Status error on a bad
content type, parse the body (a thrown TypeError propagates), and reject
with an API Status error when the snapshot lacks `clientId`. -/
def apiStatusJS (dateParse : String → Int) (responseType : Option String)
    (body : String) : Except OverpassFailure OverpassApiStatus :=
  if !(contentTypeOk responseType) then
    .error (.apiStatusErr ("Response type incorrect (" ++ ctShow responseType ++ ")"))
  else
    match parseApiStatusJS dateParse body with
    | .error _ => .error .typeError
    | .ok st =>
      if st.clientId.isNone then .error (.apiStatusErr "Unable to parse API Status")
      else .ok st

/-- Replace the first occurrence of `pat` in a character list by `rep`
(`String.prototype.replace` with a string pattern). -/
def replaceFirstL (pat rep : List Char) : List Char → List Char
  | [] => []
  | c :: cs =>
    if pat.isPrefixOf (c :: cs) then rep ++ (c :: cs).drop pat.length
    else c :: replaceFirstL pat rep cs

/-- `s.replace(pat, rep)` for string patterns with no `$` directives. -/
def jsReplaceFirst (s pat rep : String) : String :=
  ⟨replaceFirstL pat.toList rep.toList s.toList⟩

/-- The URL the status request is sent to:
`endpoint.replace("/interpreter", "/status")`. -/
def statusUrl (endpoint : String) : String :=
  jsReplaceFirst endpoint "/interpreter" "/status"

/-- JS `a > b` where `a` may be `undefined`/`NaN` (`none`): such a
comparison is always false. -/
def jsGt : Option Int → Int → Bool
  | none, _ => false
  | some a, b => b < a

/-- JS `a == 0` where `a` may be `undefined`/`NaN` (`none`): false in both
cases. -/
def jsEqZero : Option Int → Bool
  | none => false
  | some a => a == 0

/-- The immediate-retry condition of the 429 branch, exactly as ordered in
the source: `rateLimit > slotsAvailableAfter.length + slotsRunning.length || rateLimit == 0`. -/
def shouldRetryImmediately (st : OverpassApiStatus) : Bool :=
  jsGt st.rateLimit ((st.slotsAvailableAfter.length : Int) + (st.slotsRunning.length : Int)) ||
    jsEqZero st.rateLimit

/-- The spec's formulation of the same decision, in the spec's order:
`rateLimit == 0 || rateLimit > len(slotsRunning) + len(slotsAvailableAfter)`. -/
def specShouldRetryImmediately (st : OverpassApiStatus) : Bool :=
  jsEqZero st.rateLimit ||
    jsGt st.rateLimit ((st.slotsRunning.length : Int) + (st.slotsAvailableAfter.length : Int))

/-- `lowestWaitTime` of the delayed 429 branch:
`Math.min(0, ...slotsAvailableAfter) + 1` seconds. -/
def lowestWaitTime (st : OverpassApiStatus) : Int :=
  st.slotsAvailableAfter.foldl min 0 + 1

/-- `RequestConfig` (`OverpassOptions` merged with the defaults; every
field present). -/
structure OverpassOptions where
  endpoint : String
  numRetries : Int
  retryPause : Int
  verbose : Bool
  userAgent : String
deriving DecidableEq

/-- `oneLessRetry` from src/utils.ts: `Object.assign({}, opts, {numRetries: opts.numRetries - 1})`
— a fresh object agreeing with `opts` on every field except `numRetries`,
which is decremented by one. -/
def oneLessRetry (opts : OverpassOptions) : OverpassOptions :=
  {opts with numRetries := opts.numRetries - 1}

/-- An HTTP response as the executor observes it. -/
structure JsResponse where
  status : Nat
  statusText : String
  body : String
deriving DecidableEq

/-- `resp.ok`: status in the inclusive range 200–299. -/
def respOk (r : JsResponse) : Bool :=
  200 ≤ r.status && r.status < 300

/-- Observable network/suspension events of one executor run. -/
inductive TraceAction where
  | post
  | statusFetch (url : String)
  | waitMs (ms : Int)
deriving DecidableEq

/-- `"&quot;"` unescaping: `error.replaceAll("&quot;", '&#34;')` on the
extracted fragments ("&quot;" is 6 characters). -/
def unescapeQuotL : List Char → List Char
  | [] => []
  | c :: cs =>
    if "&quot;".toList.isPrefixOf (c :: cs) then
      '"' :: unescapeQuotL ((c :: cs).drop 6)
    else c :: unescapeQuotL cs
termination_by l => l.length
decreasing_by
  all_goals simp [List.length_drop]
  omega

/-- Successive matches of the regex `<\/strong>: ([^<]+) <\/p>` over a
character list (`matchAll` from src/utils.ts collects group 1 of each).
After the literal `</strong>: ` (11 characters), the greedy `[^<]+`
followed by the literal ` </p>` forces the group to be the run of
non-`<` characters minus a mandatory trailing space, with `</p>` right
after; scanning resumes past the matched `</p>`. -/
def strongScan : List Char → List (List Char)
  | [] => []
  | c :: cs =>
    if "</strong>: ".toList.isPrefixOf (c :: cs) then
      let l := (c :: cs).drop 11
      let k := l.takeWhile (fun ch => ch != '<')
      if 2 ≤ k.length && k.getLast? == some ' ' &&
          "</p>".toList.isPrefixOf (l.drop k.length) then
        k.dropLast :: strongScan (l.drop (k.length + 4))
      else strongScan cs
    else strongScan cs
termination_by l => l.length
decreasing_by
  all_goals simp [List.length_drop]
  all_goals omega

/-- The 400 branch's error extraction: all regex matches over the body,
each with `&quot;` unescaped. -/
def extractBadRequestErrors (body : String) : List String :=
  (strongScan body.toList).map (fun l => ⟨unescapeQuotL l⟩)

/-- Count the POST attempts recorded in a trace. -/
def countPosts : List TraceAction → Nat
  | [] => 0
  | .post :: tr => countPosts tr + 1
  | .statusFetch _ :: tr => countPosts tr
  | .waitMs _ :: tr => countPosts tr

/-- The request executor `overpass` from src/overpass.ts as a fuel-indexed
step function.  `posts i` is the response to the `i`-th POST of this call
chain and `sts j` the outcome of the `j`-th status fetch (`apiStatusJS`
applied to what the network returned; a rejection carries the thrown
error).  The returned trace records every POST, status fetch, and
suspension (in milliseconds); `none` means the fuel ran out before the
recursion finished — the recursion itself is the source's unbounded
self-call. -/
def run (query : String) (posts : Nat → JsResponse)
    (sts : Nat → Except OverpassFailure OverpassApiStatus) :
    Nat → OverpassOptions → Nat → Nat →
    Option (Except OverpassFailure JsResponse × List TraceAction)
  | 0, _, _, _ => none
  | fuel + 1, opts, pIdx, sIdx =>
    let resp := posts pIdx
    if respOk resp then
      some (.ok resp, [.post])
    else if resp.status == 400 then
      some (.error (.badRequest query (extractBadRequestErrors resp.body)), [.post])
    else if resp.status == 429 then
      if opts.numRetries == 0 then
        some (.error .rateLimit, [.post])
      else
        match sts sIdx with
        | .error e => some (.error e, [.post, .statusFetch (statusUrl opts.endpoint)])
        | .ok st =>
          if shouldRetryImmediately st then
            (run query posts sts fuel (oneLessRetry opts) (pIdx + 1) (sIdx + 1)).map
              (fun r => (r.1, .post :: .statusFetch (statusUrl opts.endpoint) :: r.2))
          else
            (run query posts sts fuel (oneLessRetry opts) (pIdx + 1) (sIdx + 1)).map
              (fun r => (r.1, .post :: .statusFetch (statusUrl opts.endpoint) ::
                .waitMs (lowestWaitTime st * 1000) :: r.2))
    else if resp.status == 504 then
      if opts.numRetries == 0 then
        some (.error .gatewayTimeout, [.post])
      else
        (run query posts sts fuel (oneLessRetry opts) (pIdx + 1) sIdx).map
          (fun r => (r.1, .post :: .waitMs opts.retryPause :: r.2))
    else
      some (.error (.overpassErr (toString resp.status ++ " " ++ resp.statusText)), [.post])

/-- The part of an Overpass JSON document the `overpassJson` adapter
inspects: its optional `remark` member. -/
structure OverpassJsonBody where
  remark : Option String
deriving DecidableEq

/-- JS truthiness of an optional string: `undefined` and the empty string
are falsy. -/
def jsTruthyStr : Option String → Bool
  | none => false
  | some s => !(s == "")

/-- The post-response check of `overpassJson`: `if (json.remark) throw new
OverpassError(json.remark); else return json`. -/
def overpassJsonCheck (json : OverpassJsonBody) : Except OverpassFailure OverpassJsonBody :=
  if jsTruthyStr json.remark then
    .error (.overpassErr (json.remark.getD ""))
  else
    .ok json

/-- Continuation `\s*<\/remark>` of the remark regex, matched at the start
of `l`: the greedy `\s*` must consume the whole whitespace run (the
literal starts with a non-whitespace `<`), then the literal follows. -/
def remarkCloseAt (l : List Char) : Bool :=
  "</remark>".toList.isPrefixOf (l.dropWhile wsChar)

/-- Greedy `(.+)` of the remark regex at the start of `l`: the longest
nonempty newline-free prefix whose remainder matches `\s*<\/remark>`.
The second argument is the candidate length, tried in descending order. -/
def remarkGroupSearch (l : List Char) : Nat → Option (List Char)
  | 0 => none
  | g + 1 =>
    if (l.take (g + 1)).all (fun c => c != '\n') && remarkCloseAt (l.drop (g + 1)) then
      some (l.take (g + 1))
    else remarkGroupSearch l g

/-- Greedy leading `\s*` of the remark regex: try the whitespace-prefix
length `w` in descending order, for each looking for the greedy group. -/
def remarkWsSearch (l : List Char) : Nat → Option (List Char)
  | 0 => remarkGroupSearch l l.length
  | w + 1 =>
    match remarkGroupSearch (l.drop (w + 1)) (l.drop (w + 1)).length with
    | some g => some g
    | none => remarkWsSearch l w

/-- Attempt the remark regex with the literal `<remark>` anchored at the
start of `l` (which is the text right after that literal). -/
def remarkMatchAfterOpen (l : List Char) : Option (List Char) :=
  remarkWsSearch l (l.takeWhile wsChar).length

/-- Leftmost match of `/<remark>\s*(.+)\s*<\/remark>/` over a character
list, returning capture group 1 (`line.match(...)` in `overpassXml`):
scan for the leftmost position where the whole pattern matches. -/
def remarkScan : List Char → Option (List Char)
  | [] => none
  | c :: cs =>
    if "<remark>".toList.isPrefixOf (c :: cs) then
      match remarkMatchAfterOpen ((c :: cs).drop 8) with
      | some g => some g
      | none => remarkScan cs
    else remarkScan cs

/-- The backwards collection loop of `overpassXml`:
`for (let i = textLines.length - 4; i > 0; i--)` pushing each matched
remark and breaking at the first non-match.  `i = 0` is the loop exit;
the out-of-range lookup cannot occur since `i` starts below the number of
lines and only decreases. -/
def collectRemarks (lines : List (List Char)) : Nat → List String
  | 0 => []
  | i + 1 =>
    match lines.get? (i + 1) with
    | some line =>
      match remarkScan line with
      | some r => (⟨r⟩ : String) :: collectRemarks lines i
      | none => []
    | none => []

/-- The post-response check of `overpassXml`: if the 9 characters from 18
to 9 before the end are `</remark>`, collect remark texts bottom-up from
the fourth-from-last line and throw them joined by ", "; otherwise return
the body text. -/
def overpassXmlCheck (text : String) : Except OverpassFailure String :=
  if jsSlice2 text (-18) (-9) == "</remark>" then
    let textLines := splitOnCharL '\n' text.toList
    let errors := collectRemarks textLines (textLines.length - 4)
    .error (.overpassErr (String.intercalate ", " errors))
  else
    .ok text

/-- Unfolding `run` on a success response. -/
theorem run_success (query : String) (posts : Nat → JsResponse)
    (sts : Nat → Except OverpassFailure OverpassApiStatus)
    (fuel : Nat) (opts : OverpassOptions) (pIdx sIdx : Nat)
    (hok : respOk (posts pIdx) = true) :
    run query posts sts (fuel + 1) opts pIdx sIdx = some (.ok (posts pIdx), [.post]) := by
  simp [run, hok]

/-- Unfolding `run` on a 429 response with budget left and an immediate-retry
snapshot: recurse at once on the decremented configuration. -/
theorem run_429_immediate (query : String) (posts : Nat → JsResponse)
    (sts : Nat → Except OverpassFailure OverpassApiStatus)
    (fuel : Nat) (opts : OverpassOptions) (pIdx sIdx : Nat) (st : OverpassApiStatus)
    (h429 : (posts pIdx).status = 429) (hbudget : opts.numRetries ≠ 0)
    (hst : sts sIdx = .ok st) (himm : shouldRetryImmediately st = true) :
    run query posts sts (fuel + 1) opts pIdx sIdx =
      (run query posts sts fuel (oneLessRetry opts) (pIdx + 1) (sIdx + 1)).map
        (fun r => (r.1, .post :: .statusFetch (statusUrl opts.endpoint) :: r.2)) := by
  simp [run, respOk, h429, hbudget, hst, himm]

/-- Unfolding `run` on a 429 response with budget left and a saturated
snapshot: suspend `lowestWaitTime` seconds, then recurse on the decremented
configuration. -/
theorem run_429_delayed (query : String) (posts : Nat → JsResponse)
    (sts : Nat → Except OverpassFailure OverpassApiStatus)
    (fuel : Nat) (opts : OverpassOptions) (pIdx sIdx : Nat) (st : OverpassApiStatus)
    (h429 : (posts pIdx).status = 429) (hbudget : opts.numRetries ≠ 0)
    (hst : sts sIdx = .ok st) (himm : shouldRetryImmediately st = false) :
    run query posts sts (fuel + 1) opts pIdx sIdx =
      (run query posts sts fuel (oneLessRetry opts) (pIdx + 1) (sIdx + 1)).map
        (fun r => (r.1, .post :: .statusFetch (statusUrl opts.endpoint) ::
          .waitMs (lowestWaitTime st * 1000) :: r.2)) := by
  simp [run, respOk, h429, hbudget, hst, himm]

/-- Unfolding `run` on a 504 response with budget left: suspend
`retryPause` milliseconds, then recurse on the decremented configuration. -/
theorem run_504_retry (query : String) (posts : Nat → JsResponse)
    (sts : Nat → Except OverpassFailure OverpassApiStatus)
    (fuel : Nat) (opts : OverpassOptions) (pIdx sIdx : Nat)
    (h504 : (posts pIdx).status = 504) (hbudget : opts.numRetries ≠ 0) :
    run query posts sts (fuel + 1) opts pIdx sIdx =
      (run query posts sts fuel (oneLessRetry opts) (pIdx + 1) sIdx).map
        (fun r => (r.1, .post :: .waitMs opts.retryPause :: r.2)) := by
  simp [run, respOk, h504, hbudget]

/-- Folding `min` over a list bounded below by the seed leaves the seed. -/
theorem foldl_min_of_le (l : List Int) : ∀ a : Int, (∀ x ∈ l, a ≤ x) → l.foldl min a = a := by
  induction l with
  | nil => intro a _; rfl
  | cons h t ih =>
    intro a ha
    have h1 : min a h = a := min_eq_left (ha h (List.mem_cons_self h t))
    simp only [List.foldl, h1]
    exact ih a (fun x hx => ha x (List.mem_cons_of_mem h hx))

/-- A 429 response. -/
def resp429 : JsResponse := { status := 429, statusText := "Too Many Requests", body := "" }

/-- A 504 response. -/
def resp504 : JsResponse := { status := 504, statusText := "Gateway Timeout", body := "" }

/-- A 200 response. -/
def respOk200 : JsResponse := { status := 200, statusText := "OK", body := "{}" }

/-- A configuration with an exhausted retry budget. -/
def optsZero : OverpassOptions :=
  { endpoint := "https://overpass-api.de/api/interpreter", numRetries := 0,
    retryPause := 2000, verbose := false, userAgent := "overpass-ts" }

/-- A configuration with one retry left. -/
def optsOne : OverpassOptions :=
  { endpoint := "https://overpass-api.de/api/interpreter", numRetries := 1,
    retryPause := 2000, verbose := false, userAgent := "overpass-ts" }

/-- The saturated snapshot of claim C1: `rateLimit = 1`, one running slot,
one slot available after 5 seconds. -/
def c1Status : OverpassApiStatus :=
  { clientId := some "1234", currentTime := some 1700000000000, rateLimit := some 1,
    slotsRunning := [["32616", "1", "60", "1699999999"]], slotsAvailableAfter := [5] }

/-- C1: on a 429 with budget left and the snapshot `rateLimit = 1`,
`slotsRunning` of length 1, `slotsAvailableAfter = [5]`, the executor takes
the delayed branch but suspends for `Math.min(0, 5) + 1 = 1` second
(1000 ms in the trace), not the 6 seconds the claim's wait formula
`max(0, min(slotsAvailableAfter)) + 1` prescribes. -/
theorem claim1_delayed_retry_waits_one_second :
    shouldRetryImmediately c1Status = false ∧
    lowestWaitTime c1Status = 1 ∧
    lowestWaitTime c1Status ≠ 6 ∧
    run "q" (fun i => if i = 0 then resp429 else respOk200) (fun _ => .ok c1Status)
        2 optsOne 0 0 =
      some (.ok respOk200,
        [.post, .statusFetch "https://overpass-api.de/api/status", .waitMs 1000, .post]) :=
  ⟨rfl, rfl, by decide, rfl⟩

/-- C2: the status parser is not total — a report containing a
`Slot ... available ...` line, or a running-query line, makes
`parseApiStatus` call the nonexistent `Array.prototype.append`, throwing a
TypeError instead of appending and returning a snapshot (for every host
`Date.parse`). -/
theorem claim2_parser_throws_on_slot_and_running_lines :
    ∀ dateParse : String → Int,
      parseApiStatusJS dateParse
        "Connected as: 123456\nSlot available after: 1700000000, in 5 seconds." = .error () ∧
      parseApiStatusJS dateParse
        "Connected as: 123456\n32616\t1\t60\t1699999999" = .error () :=
  fun _ => ⟨rfl, rfl⟩

/-- C3: with `numRetries = 0`, a 429 response raises the Rate Limit error
and a 504 response raises the Gateway Timeout error, in both cases with a
trace of exactly one POST — no status fetch, no suspension, no re-POST. -/
theorem claim3_zero_budget_terminal (query : String) (posts : Nat → JsResponse)
    (sts : Nat → Except OverpassFailure OverpassApiStatus)
    (fuel : Nat) (opts : OverpassOptions) (pIdx sIdx : Nat)
    (h0 : opts.numRetries = 0) :
    ((posts pIdx).status = 429 →
      run query posts sts (fuel + 1) opts pIdx sIdx = some (.error .rateLimit, [.post])) ∧
    ((posts pIdx).status = 504 →
      run query posts sts (fuel + 1) opts pIdx sIdx = some (.error .gatewayTimeout, [.post])) := by
  constructor
  · intro h429
    simp [run, respOk, h429, h0]
  · intro h504
    simp [run, respOk, h504, h0]

/-- Witness for C3 at concrete inputs. -/
theorem claim3_zero_budget_terminal_witness :
    run "q" (fun _ => resp429) (fun _ => .error .rateLimit) 1 optsZero 0 0 =
      some (.error .rateLimit, [.post]) ∧
    run "q" (fun _ => resp504) (fun _ => .error .rateLimit) 1 optsZero 0 0 =
      some (.error .gatewayTimeout, [.post]) :=
  ⟨(claim3_zero_budget_terminal "q" (fun _ => resp429) (fun _ => .error .rateLimit)
      0 optsZero 0 0 rfl).1 rfl,
   (claim3_zero_budget_terminal "q" (fun _ => resp504) (fun _ => .error .rateLimit)
      0 optsZero 0 0 rfl).2 rfl⟩

/-- C4: the 429 branch's immediate-retry decision equals the spec's
`shouldRetryImmediately` formula (`rateLimit == 0 || rateLimit >
len(slotsRunning) + len(slotsAvailableAfter)`); it is true whenever
`rateLimit == 0`; and when it holds the executor recurses at once — no
suspension in the trace — on the budget decremented by one. -/
theorem claim4_immediate_retry_decision :
    (∀ st, shouldRetryImmediately st = specShouldRetryImmediately st) ∧
    (∀ st, st.rateLimit = some 0 → shouldRetryImmediately st = true) ∧
    (∀ (query : String) (posts : Nat → JsResponse)
        (sts : Nat → Except OverpassFailure OverpassApiStatus)
        (fuel : Nat) (opts : OverpassOptions) (pIdx sIdx : Nat) (st : OverpassApiStatus),
      (posts pIdx).status = 429 → opts.numRetries ≠ 0 → sts sIdx = .ok st →
      shouldRetryImmediately st = true →
      run query posts sts (fuel + 1) opts pIdx sIdx =
        (run query posts sts fuel (oneLessRetry opts) (pIdx + 1) (sIdx + 1)).map
          (fun r => (r.1, .post :: .statusFetch (statusUrl opts.endpoint) :: r.2))) := by
  refine ⟨?_, ?_, ?_⟩
  · intro st
    cases h : st.rateLimit with
    | none => simp [shouldRetryImmediately, specShouldRetryImmediately, jsGt, jsEqZero, h]
    | some a =>
      simp only [shouldRetryImmediately, specShouldRetryImmediately, jsGt, jsEqZero, h]
      rw [Int.add_comm]
      exact Bool.or_comm _ _
  · intro st h
    simp [shouldRetryImmediately, jsEqZero, h]
  · intro query posts sts fuel opts pIdx sIdx st h429 hbudget hst himm
    exact run_429_immediate query posts sts fuel opts pIdx sIdx st h429 hbudget hst himm

/-- The snapshot of the spec's immediate-retry end-to-end example:
`rateLimit = 2`, one running slot, no saturated slots. -/
def c4Status : OverpassApiStatus :=
  { clientId := some "1234", currentTime := some 1700000000000, rateLimit := some 2,
    slotsRunning := [["32616", "1", "60", "1699999999"]], slotsAvailableAfter := [] }

/-- A snapshot with `rateLimit = 0` and nonempty slot lists. -/
def c4StatusZero : OverpassApiStatus :=
  { clientId := some "1234", currentTime := some 1700000000000, rateLimit := some 0,
    slotsRunning := [["32616", "1", "60", "1699999999"]], slotsAvailableAfter := [3, 7] }

/-- Witness for C4 at concrete inputs. -/
theorem claim4_immediate_retry_decision_witness :
    shouldRetryImmediately c4StatusZero = true ∧
    run "q" (fun i => if i = 0 then resp429 else respOk200) (fun _ => .ok c4Status)
        2 optsOne 0 0 =
      (run "q" (fun i => if i = 0 then resp429 else respOk200) (fun _ => .ok c4Status)
          1 (oneLessRetry optsOne) 1 1).map
        (fun r => (r.1, .post :: .statusFetch (statusUrl optsOne.endpoint) :: r.2)) :=
  ⟨claim4_immediate_retry_decision.2.1 c4StatusZero rfl,
   claim4_immediate_retry_decision.2.2 "q" (fun i => if i = 0 then resp429 else respOk200)
     (fun _ => .ok c4Status) 1 optsOne 0 0 c4Status rfl (by decide) rfl (by decide)⟩

/-- C5: with a correct `text/plain` content type and a realistic body that
has a `Connected` line (so the intended snapshot would carry `clientId`),
the status fetch neither returns a snapshot nor raises an API Status
error: the parser's nonexistent `.append` throws a TypeError on the empty
trailing line, and that TypeError propagates out of `apiStatus` (for every
host `Date.parse`). -/
theorem claim5_status_fetch_type_error :
    contentTypeOk (some "text/plain") = true ∧
    ∀ dateParse : String → Int,
      apiStatusJS dateParse (some "text/plain") "Connected as: 123456\n" = .error .typeError :=
  ⟨rfl, fun _ => rfl⟩

/-- C6 counterexample: an HTTP-successful markup body embedding a remark
element is returned unchanged by `overpassXml`'s check — no error raised —
because the element's close tag is not at the fixed position 18..9 before
the end of the body. -/
theorem claim6_counterexample :
    containsSubstrS "<remark>fail</remark>" "<remark>" = true ∧
    overpassXmlCheck "<remark>fail</remark>" = .ok "<remark>fail</remark>" :=
  ⟨rfl, rfl⟩

/-- C6 as amended: `overpassJson` raises an error carrying the remark text
for every body whose `remark` member is a non-empty string, and
`overpassXml` raises an error exactly when the body's characters from 18
to 9 before the end are `</remark>` — a remark anywhere else is not
detected. -/
theorem claim6_remark_detection :
    (∀ (json : OverpassJsonBody) (r : String), json.remark = some r → r ≠ "" →
      overpassJsonCheck json = .error (.overpassErr r)) ∧
    (∀ t : String, (∃ e, overpassXmlCheck t = .error e) ↔ jsSlice2 t (-18) (-9) = "</remark>") := by
  constructor
  · intro json r h hne
    simp [overpassJsonCheck, jsTruthyStr, h, hne]
  · intro t
    by_cases hc : jsSlice2 t (-18) (-9) = "</remark>"
    · simp [overpassXmlCheck, hc]
    · simp [overpassXmlCheck, hc]

/-- Witness for C6's amended statement at concrete inputs. -/
theorem claim6_remark_detection_witness :
    overpassJsonCheck ⟨some "runtime error"⟩ = .error (.overpassErr "runtime error") ∧
    (∃ e, overpassXmlCheck "</remark>ABCDEFGHI" = .error e) :=
  ⟨claim6_remark_detection.1 ⟨some "runtime error"⟩ "runtime error" rfl (by decide),
   (claim6_remark_detection.2 "</remark>ABCDEFGHI").2 rfl⟩

/-- C7 counterexample: on an endpoint whose host also contains the
substring `/interpreter`, the status URL is derived from the FIRST
occurrence, leaving the trailing `/interpreter` segment in place — not the
URL the claim's trailing-segment rule would produce. -/
theorem claim7_counterexample :
    statusUrl "https://interpreter.example.com/api/interpreter" =
      "https://status.example.com/api/interpreter" ∧
    statusUrl "https://interpreter.example.com/api/interpreter" ≠
      "https://interpreter.example.com/api/status" :=
  ⟨rfl, by decide⟩

/-- `replace` leaves a string without an occurrence of the pattern
unchanged. -/
theorem replaceFirstL_of_not_contains (pat rep : List Char) :
    ∀ l, containsSubstrL pat l = false → replaceFirstL pat rep l = l := by
  intro l
  induction l with
  | nil => intro _; rfl
  | cons c cs ih =>
    intro h
    simp only [containsSubstrL, Bool.or_eq_false_iff] at h
    simp [replaceFirstL, h.1, ih h.2]

/-- When the first occurrence of `/interpreter` is the trailing segment,
`replace` rewrites exactly that trailing segment. -/
theorem replaceFirstL_append_pat :
    ∀ pre : List Char,
      (∀ i, i < pre.length →
        "/interpreter".toList.isPrefixOf ((pre ++ "/interpreter".toList).drop i) = false) →
      replaceFirstL "/interpreter".toList "/status".toList (pre ++ "/interpreter".toList) =
        pre ++ "/status".toList := by
  intro pre
  induction pre with
  | nil => intro _; decide
  | cons c cs ih =>
    intro h
    have h0 := h 0 (by simp)
    rw [List.drop_zero] at h0
    have hrec : ∀ i, i < cs.length →
        "/interpreter".toList.isPrefixOf ((cs ++ "/interpreter".toList).drop i) = false := by
      intro i hi
      have hstep := h (i + 1) (by simp; omega)
      rw [List.cons_append, List.drop_succ_cons] at hstep
      exact hstep
    simp only [List.cons_append] at h0 ⊢
    simp only [replaceFirstL, h0, Bool.false_eq_true, if_false]
    exact congrArg (List.cons c) (ih hrec)

/-- C7 as amended: the status URL replaces the FIRST occurrence of the
substring `/interpreter` with `/status` — an endpoint without the
substring is unchanged, and when the only occurrence is the trailing
segment this coincides with replacing the trailing segment. -/
theorem claim7_first_occurrence_replacement :
    (∀ s : String, containsSubstrS s "/interpreter" = false → statusUrl s = s) ∧
    (∀ pre : List Char,
      (∀ i, i < pre.length →
        "/interpreter".toList.isPrefixOf ((pre ++ "/interpreter".toList).drop i) = false) →
      statusUrl ⟨pre ++ "/interpreter".toList⟩ = ⟨pre ++ "/status".toList⟩) := by
  constructor
  · intro s h
    show (⟨replaceFirstL "/interpreter".toList "/status".toList s.toList⟩ : String) = s
    rw [replaceFirstL_of_not_contains _ _ _ h]
    rfl
  · intro pre h
    show (⟨replaceFirstL "/interpreter".toList "/status".toList (pre ++ "/interpreter".toList)⟩ : String) = _
    rw [replaceFirstL_append_pat pre h]

/-- Witness for C7's amended statement: the default endpoint's trailing
segment, its only occurrence of `/interpreter`, is replaced. -/
theorem claim7_first_occurrence_replacement_witness :
    statusUrl "https://overpass-api.de/api/interpreter" =
      "https://overpass-api.de/api/status" := by
  have h := claim7_first_occurrence_replacement.2 "https://overpass-api.de/api".toList (by decide)
  exact h

/-- C8: whenever `slotsAvailableAfter` is non-empty and its minimum is
non-negative, the wait used before a delayed 429 retry is at least 1
second. -/
theorem claim8_wait_at_least_one_second (st : OverpassApiStatus)
    (hne : st.slotsAvailableAfter ≠ [])
    (hmin : ∀ x ∈ st.slotsAvailableAfter, 0 ≤ x) :
    1 ≤ lowestWaitTime st := by
  have h := foldl_min_of_le st.slotsAvailableAfter 0 hmin
  unfold lowestWaitTime
  omega

/-- Witness for C8 at a concrete snapshot. -/
theorem claim8_wait_at_least_one_second_witness :
    1 ≤ lowestWaitTime { slotsAvailableAfter := [5] } :=
  claim8_wait_at_least_one_second { slotsAvailableAfter := [5] } (by decide) (by decide)

/-- C9: `oneLessRetry` builds a fresh configuration whose `numRetries` is
exactly one less and whose other fields are unchanged, and every retry —
429 with capacity free, 429 saturated, and 504 — re-enters the executor
with exactly `oneLessRetry` of the current configuration. -/
theorem claim9_retry_uses_decremented_copy :
    (∀ opts : OverpassOptions,
      (oneLessRetry opts).numRetries = opts.numRetries - 1 ∧
      (oneLessRetry opts).endpoint = opts.endpoint ∧
      (oneLessRetry opts).retryPause = opts.retryPause ∧
      (oneLessRetry opts).verbose = opts.verbose ∧
      (oneLessRetry opts).userAgent = opts.userAgent) ∧
    (∀ (query : String) (posts : Nat → JsResponse)
        (sts : Nat → Except OverpassFailure OverpassApiStatus)
        (fuel : Nat) (opts : OverpassOptions) (pIdx sIdx : Nat) (st : OverpassApiStatus),
      (posts pIdx).status = 429 → opts.numRetries ≠ 0 → sts sIdx = .ok st →
      run query posts sts (fuel + 1) opts pIdx sIdx =
        (run query posts sts fuel (oneLessRetry opts) (pIdx + 1) (sIdx + 1)).map
          (fun r => (r.1, .post :: .statusFetch (statusUrl opts.endpoint) ::
            (if shouldRetryImmediately st then r.2
             else .waitMs (lowestWaitTime st * 1000) :: r.2)))) ∧
    (∀ (query : String) (posts : Nat → JsResponse)
        (sts : Nat → Except OverpassFailure OverpassApiStatus)
        (fuel : Nat) (opts : OverpassOptions) (pIdx sIdx : Nat),
      (posts pIdx).status = 504 → opts.numRetries ≠ 0 →
      run query posts sts (fuel + 1) opts pIdx sIdx =
        (run query posts sts fuel (oneLessRetry opts) (pIdx + 1) sIdx).map
          (fun r => (r.1, .post :: .waitMs opts.retryPause :: r.2))) := by
  refine ⟨fun opts => ⟨rfl, rfl, rfl, rfl, rfl⟩, ?_, ?_⟩
  · intro query posts sts fuel opts pIdx sIdx st h429 hb hst
    cases himm : shouldRetryImmediately st with
    | false =>
      simpa [himm] using run_429_delayed query posts sts fuel opts pIdx sIdx st h429 hb hst himm
    | true =>
      simpa [himm] using run_429_immediate query posts sts fuel opts pIdx sIdx st h429 hb hst himm
  · intro query posts sts fuel opts pIdx sIdx h504 hb
    exact run_504_retry query posts sts fuel opts pIdx sIdx h504 hb

/-- Witness for C9 at concrete inputs. -/
theorem claim9_retry_uses_decremented_copy_witness :
    (oneLessRetry optsOne).numRetries = optsOne.numRetries - 1 ∧
    run "q" (fun i => if i = 0 then resp504 else respOk200) (fun _ => .error .rateLimit)
        2 optsOne 0 0 =
      (run "q" (fun i => if i = 0 then resp504 else respOk200) (fun _ => .error .rateLimit)
          1 (oneLessRetry optsOne) 1 0).map
        (fun r => (r.1, .post :: .waitMs optsOne.retryPause :: r.2)) :=
  ⟨(claim9_retry_uses_decremented_copy.1 optsOne).1,
   claim9_retry_uses_decremented_copy.2.2 "q"
     (fun i => if i = 0 then resp504 else respOk200) (fun _ => .error .rateLimit)
     1 optsOne 0 0 rfl (by decide)⟩

/-- C10: with a non-negative budget `numRetries = n` and any oracle of
server responses, the executor with `n < fuel` never exhausts its fuel —
the recursion depth is bounded by the budget, so the source's unbounded
recursion terminates — and the trace holds at most `n + 1` POST attempts. -/
theorem claim10_retry_budget_bounds_posts (query : String) (posts : Nat → JsResponse)
    (sts : Nat → Except OverpassFailure OverpassApiStatus) :
    ∀ (fuel : Nat) (opts : OverpassOptions) (pIdx sIdx : Nat),
      0 ≤ opts.numRetries → opts.numRetries < (fuel : Int) →
      ∃ out, run query posts sts fuel opts pIdx sIdx = some out ∧
        countPosts out.2 ≤ opts.numRetries.toNat + 1 := by
  intro fuel
  induction fuel with
  | zero =>
    intro opts pIdx sIdx h0 hlt
    exact absurd hlt (by omega)
  | succ fuel ih =>
    intro opts pIdx sIdx h0 hlt
    by_cases hok : respOk (posts pIdx) = true
    · exact ⟨(.ok (posts pIdx), [.post]), by simp [run, hok], by simp [countPosts]⟩
    · by_cases h400 : (posts pIdx).status = 400
      · refine ⟨(.error (.badRequest query (extractBadRequestErrors (posts pIdx).body)),
          [.post]), by simp [run, hok, h400], by simp [countPosts]⟩
      · by_cases h429 : (posts pIdx).status = 429
        · by_cases hb : opts.numRetries = 0
          · exact ⟨(.error .rateLimit, [.post]),
              by simp [run, hok, h400, h429, hb], by simp [countPosts]⟩
          · have h0' : 0 ≤ (oneLessRetry opts).numRetries := by
              simp only [oneLessRetry]; omega
            have hlt' : (oneLessRetry opts).numRetries < (fuel : Int) := by
              simp only [oneLessRetry]; omega
            cases hsts : sts sIdx with
            | error e =>
              exact ⟨(.error e, [.post, .statusFetch (statusUrl opts.endpoint)]),
                by simp [run, hok, h400, h429, hb, hsts], by simp [countPosts]⟩
            | ok st =>
              obtain ⟨out, hrun, hcnt⟩ := ih (oneLessRetry opts) (pIdx + 1) (sIdx + 1) h0' hlt'
              simp only [oneLessRetry] at hcnt
              cases himm : shouldRetryImmediately st with
              | true =>
                refine ⟨(out.1, .post :: .statusFetch (statusUrl opts.endpoint) :: out.2),
                  ?_, ?_⟩
                · rw [run_429_immediate query posts sts fuel opts pIdx sIdx st h429 hb hsts himm,
                    hrun]
                  rfl
                · simp only [countPosts]
                  omega
              | false =>
                refine ⟨(out.1, .post :: .statusFetch (statusUrl opts.endpoint) ::
                    .waitMs (lowestWaitTime st * 1000) :: out.2), ?_, ?_⟩
                · rw [run_429_delayed query posts sts fuel opts pIdx sIdx st h429 hb hsts himm,
                    hrun]
                  rfl
                · simp only [countPosts]
                  omega
        · by_cases h504 : (posts pIdx).status = 504
          · by_cases hb : opts.numRetries = 0
            · exact ⟨(.error .gatewayTimeout, [.post]),
                by simp [run, hok, h400, h429, h504, hb], by simp [countPosts]⟩
            · have h0' : 0 ≤ (oneLessRetry opts).numRetries := by
                simp only [oneLessRetry]; omega
              have hlt' : (oneLessRetry opts).numRetries < (fuel : Int) := by
                simp only [oneLessRetry]; omega
              obtain ⟨out, hrun, hcnt⟩ := ih (oneLessRetry opts) (pIdx + 1) sIdx h0' hlt'
              simp only [oneLessRetry] at hcnt
              refine ⟨(out.1, .post :: .waitMs opts.retryPause :: out.2), ?_, ?_⟩
              · rw [run_504_retry query posts sts fuel opts pIdx sIdx h504 hb, hrun]
                rfl
              · simp only [countPosts]
                omega
          · exact ⟨(.error (.overpassErr (toString (posts pIdx).status ++ " " ++
              (posts pIdx).statusText)), [.post]),
              by simp [run, hok, h400, h429, h504], by simp [countPosts]⟩

/-- Witness for C10 at concrete inputs: budget 0, one 429 response, fuel 1. -/
theorem claim10_retry_budget_bounds_posts_witness :
    ∃ out, run "q" (fun _ => resp429) (fun _ => .error .rateLimit) 1 optsZero 0 0 = some out ∧
      countPosts out.2 ≤ optsZero.numRetries.toNat + 1 :=
  claim10_retry_budget_bounds_posts "q" (fun _ => resp429) (fun _ => .error .rateLimit)
    1 optsZero 0 0 (by decide) (by decide)
